import Mathlib

/-!
Verification development for the VAD (voice activity detection) backend:
a shallow embedding of `audio_analysis_service.py`, `socket_vad_service.py`
and `silero_vad_service.py`, together with theorems about the calibration
engine, the per-frame ensemble classifier, the chunk-level speech/silence
state machine and the session registry.

Numbers: audio levels, weights and scores are real numbers; timestamps are
integers (milliseconds); counters are naturals.  Because Python's
`statistics.stdev` takes a square root, the analyzer state lives in `ℝ`
and the development is a `noncomputable section` using classical
decidability for comparisons of reals.
-/

noncomputable section

open Classical

namespace Csm

/-! ### Statistics helpers (Python `statistics.mean` / `statistics.stdev`) -/

/-- `statistics.mean`: sum divided by length. -/
def mean (xs : List ℝ) : ℝ := xs.sum / xs.length

/-- Sample variance with Bessel's correction (denominator `n - 1`),
as used by Python's `statistics.stdev`. -/
def sampleVariance (xs : List ℝ) : ℝ :=
  ((xs.map (fun x => (x - mean xs) ^ 2)).sum) / ((xs.length : ℝ) - 1)

/-- `statistics.stdev`: square root of the sample variance. -/
def stdev (xs : List ℝ) : ℝ := Real.sqrt (sampleVariance xs)

/-- Boolean comparison of reals, classical (`a < b` as a `Bool`). -/
def rlt (a b : ℝ) : Bool := if a < b then true else false

/-! ### Events of the `AudioAnalysisService` (`AudioAnalysisEvent`) -/

/-- The event names emitted by `AudioAnalysisService._emit_event`. -/
inductive AEvent
  | calibrationStart
  | calibrationComplete
  | speechStart
  | speechEnd
  | thresholdChanged
deriving DecidableEq, BEq, Repr

/-! ### Configuration (`DEFAULT_CONFIG` and `update_config`) -/

/-- Configuration of the `AudioAnalysisService` (the recognized keys of
`DEFAULT_CONFIG`; the `debug` flag only controls printing and is omitted). -/
structure AConfig where
  initial_sensitivity_factor : ℝ
  calibration_duration_ms : Int
  recalibration_interval_ms : Int
  silence_duration_for_recal_ms : Int
  max_sample_history : Nat
  smoothing_factor : ℝ
  consecutive_frames_threshold : Nat

/-- `DEFAULT_CONFIG` of `audio_analysis_service.py`. -/
def defaultAConfig : AConfig :=
  { initial_sensitivity_factor := 1.5
    calibration_duration_ms := 2000
    recalibration_interval_ms := 5000
    silence_duration_for_recal_ms := 2000
    max_sample_history := 50
    smoothing_factor := 0.1
    consecutive_frames_threshold := 2 }

/-- A partial configuration dictionary as passed to
`AudioAnalysisService.update_config`: each key optionally present. -/
structure AConfigPatch where
  initial_sensitivity_factor : Option ℝ := none
  calibration_duration_ms : Option Int := none
  recalibration_interval_ms : Option Int := none
  silence_duration_for_recal_ms : Option Int := none
  max_sample_history : Option Nat := none
  smoothing_factor : Option ℝ := none
  consecutive_frames_threshold : Option Nat := none

/-- `self._config.update(config)`: merge a patch over a configuration. -/
def applyPatch (cfg : AConfig) (p : AConfigPatch) : AConfig :=
  { initial_sensitivity_factor :=
      p.initial_sensitivity_factor.getD cfg.initial_sensitivity_factor
    calibration_duration_ms := p.calibration_duration_ms.getD cfg.calibration_duration_ms
    recalibration_interval_ms := p.recalibration_interval_ms.getD cfg.recalibration_interval_ms
    silence_duration_for_recal_ms :=
      p.silence_duration_for_recal_ms.getD cfg.silence_duration_for_recal_ms
    max_sample_history := p.max_sample_history.getD cfg.max_sample_history
    smoothing_factor := p.smoothing_factor.getD cfg.smoothing_factor
    consecutive_frames_threshold :=
      p.consecutive_frames_threshold.getD cfg.consecutive_frames_threshold }

/-! ### Analyzer state (`AudioAnalysisService.__init__` internal state) -/

/-- The mutable state of an `AudioAnalysisService` instance. -/
structure AState where
  samples : List ℝ
  noise_floor : ℝ
  std_dev : ℝ
  sensitivity_factor : ℝ
  last_calibration_time : Int
  calibration_complete : Bool
  is_calibrating : Bool
  last_is_speech : Bool
  consecutive_speech_frames : Nat
  consecutive_silence_frames : Nat
  last_speech_time : Int
  last_silence_time : Int

/-- State after `__init__` followed by `_start_calibration()`; `now` is the
wall-clock time in ms read by `_start_calibration`.  (The emitted
`calibration-start` event has no listeners at construction time.) -/
def initAState (cfg : AConfig) (now : Int) : AState :=
  { samples := []
    noise_floor := 0
    std_dev := 0
    sensitivity_factor := cfg.initial_sensitivity_factor
    last_calibration_time := now
    calibration_complete := false
    is_calibrating := true
    last_is_speech := false
    consecutive_speech_frames := 0
    consecutive_silence_frames := 0
    last_speech_time := 0
    last_silence_time := 0 }

/-- `AudioAnalysisService.update_config`: merge the patch into the config
and, if `initial_sensitivity_factor` is among the keys, assign it to the
live sensitivity factor immediately. -/
def updateConfig (cfg : AConfig) (s : AState) (p : AConfigPatch) : AConfig × AState :=
  (applyPatch cfg p,
   match p.initial_sensitivity_factor with
   | some x => { s with sensitivity_factor := x }
   | none => s)

/-- The analysis result dictionary returned by `add_audio_sample`
(the `profile` entry is derivable from the state and omitted). -/
structure AResult where
  level : ℝ
  threshold : ℝ
  is_speech : Bool
  timestamp : Int

/-- `AudioAnalysisService.get_current_threshold`. -/
def getCurrentThreshold (s : AState) : ℝ :=
  if s.calibration_complete then s.noise_floor + s.std_dev * s.sensitivity_factor
  else 0.1

/-- `AudioAnalysisService._complete_calibration`. -/
def completeCalibration (s : AState) : AState :=
  if 5 ≤ s.samples.length then
    { s with
      noise_floor := mean s.samples
      std_dev := if 1 < s.samples.length then stdev s.samples else 0.01
      is_calibrating := false
      calibration_complete := true }
  else
    { s with
      noise_floor := 0.02
      std_dev := 0.01
      is_calibrating := false
      calibration_complete := true }

/-- `AudioAnalysisService._adjust_sensitivity_factor`, returning the new
state and the emitted events. -/
def adjustSensitivityFactor (s : AState) : AState × List AEvent :=
  if s.std_dev < 0.01 then
    if 0.1 < |min 2.5 (s.sensitivity_factor * 1.1) - s.sensitivity_factor| then
      ({ s with sensitivity_factor := min 2.5 (s.sensitivity_factor * 1.1) },
       [AEvent.thresholdChanged])
    else (s, [])
  else if 0.1 < s.std_dev then
    if 0.1 < |max 1.2 (s.sensitivity_factor * 0.9) - s.sensitivity_factor| then
      ({ s with sensitivity_factor := max 1.2 (s.sensitivity_factor * 0.9) },
       [AEvent.thresholdChanged])
    else (s, [])
  else (s, [])

/-- `AudioAnalysisService._recalibrate_from_recent_silence`; `rnow` is the
wall-clock time read for `_last_calibration_time`. -/
def recalibrateFromRecentSilence (cfg : AConfig) (s : AState) (rnow : Int) :
    AState × List AEvent :=
  let silence := s.samples.drop (s.samples.length - 10)
  if silence.length ≠ 0 then
    let newFloor := mean silence
    let s1 := { s with
      noise_floor := s.noise_floor * (1 - cfg.smoothing_factor) +
        newFloor * cfg.smoothing_factor
      std_dev := if 1 < silence.length then stdev silence else s.std_dev
      last_calibration_time := rnow }
    adjustSensitivityFactor s1
  else (s, [])

/-- `AudioAnalysisService.add_audio_sample`, returning the result
dictionary, the new state, and the emitted events.  `timestamp` is the
caller-supplied sample timestamp; `rnow` models the wall-clock read made
inside `_recalibrate_from_recent_silence`. -/
def addAudioSample (cfg : AConfig) (s : AState) (level : ℝ) (timestamp rnow : Int) :
    AResult × AState × List AEvent :=
  if s.is_calibrating then
    let s1 := { s with samples := s.samples ++ [level] }
    let elapsed := timestamp - s.last_calibration_time
    let next :=
      if cfg.calibration_duration_ms ≤ elapsed then
        (completeCalibration s1, [AEvent.calibrationComplete])
      else (s1, ([] : List AEvent))
    ({ level := level, threshold := 0, is_speech := false, timestamp := timestamp },
     next.1, next.2)
  else
    let t1 := s.samples ++ [level]
    let samples1 := if cfg.max_sample_history < t1.length then t1.drop 1 else t1
    let threshold := getCurrentThreshold s
    let isSp : Bool := rlt threshold level
    let s2 :=
      if isSp then
        { s with samples := samples1
                 consecutive_speech_frames := s.consecutive_speech_frames + 1
                 consecutive_silence_frames := 0
                 last_speech_time := timestamp }
      else
        { s with samples := samples1
                 consecutive_speech_frames := 0
                 consecutive_silence_frames := s.consecutive_silence_frames + 1
                 last_silence_time := timestamp }
    let confirmed : Bool :=
      decide (cfg.consecutive_frames_threshold ≤ s2.consecutive_speech_frames)
    if confirmed && !s.last_is_speech then
      ({ level := level, threshold := threshold, is_speech := true, timestamp := timestamp },
       { s2 with last_is_speech := true }, [AEvent.speechStart])
    else if !isSp && s.last_is_speech &&
        decide (cfg.consecutive_frames_threshold ≤ s2.consecutive_silence_frames) then
      ({ level := level, threshold := threshold, is_speech := false, timestamp := timestamp },
       { s2 with last_is_speech := false }, [AEvent.speechEnd])
    else
      let silenceDuration := timestamp - s2.last_speech_time
      let next :=
        if !isSp && decide (cfg.silence_duration_for_recal_ms < silenceDuration) &&
            decide (cfg.recalibration_interval_ms < timestamp - s2.last_calibration_time) then
          recalibrateFromRecentSilence cfg s2 rnow
        else (s2, ([] : List AEvent))
      ({ level := level, threshold := threshold, is_speech := s.last_is_speech,
         timestamp := timestamp },
       next.1, next.2)

/-- Feed a list of `(level, timestamp)` samples in order, collecting for
each sample the returned result and the emitted events.  The wall clock
is taken to agree with the sample timestamps. -/
def runAnalyzer (cfg : AConfig) (s : AState) :
    List (ℝ × Int) → List (AResult × List AEvent) × AState
  | [] => ([], s)
  | (l, t) :: rest =>
    let step := addAudioSample cfg s l t t
    let next := runAnalyzer cfg step.2.1 rest
    ((step.1, step.2.2) :: next.1, next.2)

/-- The trace predicate for C5: every submitted level is at or below the
speech threshold of the analyzer state current when it is submitted. -/
def BelowAll (cfg : AConfig) : AState → List (ℝ × Int) → Prop
  | _, [] => True
  | s, (l, t) :: rest =>
    l ≤ getCurrentThreshold s ∧ BelowAll cfg (addAudioSample cfg s l t t).2.1 rest

/-- Number of `speech-end` events emitted along a trace of outputs. -/
def countSpeechEnd (out : List (AResult × List AEvent)) : Nat :=
  (out.map (fun p => p.2.count AEvent.speechEnd)).sum

/-! ### Silero VAD service (`silero_vad_service.py`)

The neural model itself is an external collaborator (loaded through
`torch.hub`); only the deterministic construction-time state of
`SileroVADService` is embedded: its configured sample rate, the derived
required window size, and the shared audio buffer. -/

/-- Deterministic state of a `SileroVADService` instance. -/
structure SileroState where
  sample_rate : Nat
  required_samples : Nat
  audio_buffer : List ℝ

/-- `SileroVADService.__init__` on a fresh instance: apply the supplied
sample rate and derive `required_samples` (512 for 16 kHz, else 256). -/
def sileroInit (sampleRate : Nat) : SileroState :=
  { sample_rate := sampleRate
    required_samples := if sampleRate = 16000 then 512 else 256
    audio_buffer := [] }

/-- `SileroVADService.__new__` / `__init__` combined: the class-level
singleton.  `g` is the current value of `SileroVADService._instance`; when
an instance already exists it is returned unchanged and the supplied
configuration is ignored (`__init__` returns early on `_initialized`). -/
def sileroGetInstance (g : Option SileroState) (sampleRate : Nat) : SileroState :=
  match g with
  | some s => s
  | none => sileroInit sampleRate

/-! ### Socket VAD session layer (`socket_vad_service.py`) -/

/-- Configuration of the socket VAD layer (`DEFAULT_SOCKET_VAD_CONFIG`;
`buffer_size` and `debug` have no effect on the embedded behaviour). -/
structure SConfig where
  sample_rate : Nat
  frame_duration_ms : Nat
  aggressiveness : Nat
  use_webrtc_vad : Bool
  use_rms_vad : Bool
  use_silero_vad : Bool
  webrtc_weight : ℝ
  rms_weight : ℝ
  silero_weight : ℝ
  session_timeout_ms : Int

/-- `DEFAULT_SOCKET_VAD_CONFIG` of `socket_vad_service.py`. -/
def defaultSConfig : SConfig :=
  { sample_rate := 16000
    frame_duration_ms := 30
    aggressiveness := 2
    use_webrtc_vad := true
    use_rms_vad := true
    use_silero_vad := true
    webrtc_weight := 0.4
    rms_weight := 0.2
    silero_weight := 0.4
    session_timeout_ms := 300000 }

/-- The `AudioFrame` dataclass (frame record kept in the session's ring
buffer). -/
structure FrameRec where
  data : List Int
  rms_level : ℝ
  timestamp : Int
  is_speech_rms : Bool
  is_speech_webrtc : Bool
  is_speech_silero : Bool
  is_speech_ensemble : Bool

/-- The per-frame result dictionary returned by `_process_frame`. -/
structure FrameResult where
  rms_level : ℝ
  is_speech_rms : Bool
  is_speech_webrtc : Bool
  is_speech_silero : Bool
  is_speech : Bool
  ensemble_score : ℝ
  timestamp : Int

/-- State of a `UserSession`. -/
structure SessionState where
  session_id : String
  created_at : Int
  last_activity : Int
  config : SConfig
  acfg : AConfig
  audio : AState
  is_speaking : Bool
  speech_start_time : Int
  speech_end_time : Int
  frames : List FrameRec
  max_frames : Nat
  total_frames : Nat
  speech_frames : Nat
  frame_size : Nat
  silero : Option SileroState

/-- `UserSession.__init__`.  `g` is the process-wide
`SileroVADService._instance` singleton cell, threaded explicitly; the new
session's audio analysis service always starts from `DEFAULT_CONFIG`.
The frame size is `sample_rate * (frame_duration_ms / 1000) * 2` bytes. -/
def newUserSession (sid : String) (cfg : SConfig) (now : Int)
    (g : Option SileroState) : SessionState × Option SileroState :=
  let next :=
    if cfg.use_silero_vad then
      let inst := sileroGetInstance g cfg.sample_rate
      (some inst, some inst)
    else (none, g)
  ({ session_id := sid
     created_at := now
     last_activity := now
     config := cfg
     acfg := defaultAConfig
     audio := initAState defaultAConfig now
     is_speaking := false
     speech_start_time := 0
     speech_end_time := 0
     frames := []
     max_frames := 100
     total_frames := 0
     speech_frames := 0
     frame_size := cfg.sample_rate * cfg.frame_duration_ms * 2 / 1000
     silero := next.1 }, next.2)

/-- `UserSession.is_expired`. -/
def isExpired (s : SessionState) (now : Int) : Bool :=
  decide (s.config.session_timeout_ms < now - s.last_activity)

/-- Normalized RMS level of a PCM16 frame:
`sqrt(mean(pcm_data^2)) / 32768.0`. -/
def rmsLevel (frame : List Int) : ℝ :=
  Real.sqrt (((frame.map (fun x => ((x : ℝ)) ^ 2)).sum) / frame.length) / 32768

/-- Sum of the weights of the enabled classifiers. -/
def totalWeight (cfg : SConfig) : ℝ :=
  (if cfg.use_rms_vad then cfg.rms_weight else 0) +
  (if cfg.use_webrtc_vad then cfg.webrtc_weight else 0) +
  (if cfg.use_silero_vad then cfg.silero_weight else 0)

/-- Weighted sum of the enabled classifiers' votes (a vote counts its
weight when `true`, `0` when `false`). -/
def weightedSum (cfg : SConfig) (rms web sil : Bool) : ℝ :=
  (if cfg.use_rms_vad then (if rms then cfg.rms_weight else 0) else 0) +
  (if cfg.use_webrtc_vad then (if web then cfg.webrtc_weight else 0) else 0) +
  (if cfg.use_silero_vad then (if sil then cfg.silero_weight else 0) else 0)

/-- The ensemble combination step of `_process_frame`: score and decision.
When the total enabled weight is positive, `score = weightedSum / totalWeight`
and the decision is `score > 0.5`; otherwise the decision falls back to the
RMS vote and the score keeps its initial value `0.0`. -/
def ensembleScore (cfg : SConfig) (rms web sil : Bool) : ℝ × Bool :=
  if 0 < totalWeight cfg then
    (weightedSum cfg rms web sil / totalWeight cfg,
     rlt (1 / 2) (weightedSum cfg rms web sil / totalWeight cfg))
  else (0, rms)

/-- `UserSession._process_frame`.  The two external classifiers are
abstracted as oracles `web` (WebRTC VAD, `is_speech` on the raw frame) and
`sil` (Silero VAD); classifier exceptions folding to `false` are absorbed
into the oracles, and the length guard is explicit as in the source. -/
def processFrame (web sil : List Int → Bool) (st : SessionState)
    (frame : List Int) (ts : Int) : FrameResult × SessionState :=
  let lvl := rmsLevel frame
  let astep := addAudioSample st.acfg st.audio lvl ts ts
  let rmsV := astep.1.is_speech
  let webV := if st.config.use_webrtc_vad && decide (frame.length = st.frame_size)
    then web frame else false
  let silV := if st.config.use_silero_vad && decide (frame.length = st.frame_size)
    then sil frame else false
  let ens := ensembleScore st.config rmsV webV silV
  let fr : FrameRec :=
    { data := frame, rms_level := lvl, timestamp := ts, is_speech_rms := rmsV
      is_speech_webrtc := webV, is_speech_silero := silV, is_speech_ensemble := ens.2 }
  let frames1 :=
    (if st.max_frames ≤ st.frames.length then st.frames.drop 1 else st.frames) ++ [fr]
  ({ rms_level := lvl, is_speech_rms := rmsV, is_speech_webrtc := webV
     is_speech_silero := silV, is_speech := ens.2, ensemble_score := ens.1
     timestamp := ts },
   { st with
     total_frames := st.total_frames + 1
     audio := astep.2.1
     frames := frames1
     speech_frames := st.speech_frames + (if ens.2 then 1 else 0) })

/-- Split decoded audio into consecutive full frames of `fs` bytes,
dropping the trailing bytes that do not fill a frame (the
`range(0, len, fs)` loop guarded by `i + fs <= len`). -/
def chunkFrames (fs : Nat) (data : List Int) : List (List Int) :=
  if _h : 0 < fs ∧ fs ≤ data.length then
    data.take fs :: chunkFrames fs (data.drop fs)
  else []
termination_by data.length
decreasing_by
  simp only [List.length_drop]
  omega

/-- Classify a list of frames in order, threading the session state. -/
def runFrames (web sil : List Int → Bool) (st : SessionState) (ts : Int) :
    List (List Int) → List FrameResult × SessionState
  | [] => ([], st)
  | f :: fs =>
    let step := processFrame web sil st f ts
    let next := runFrames web sil step.2 ts fs
    (step.1 :: next.1, next.2)

/-- The result dictionaries that `process_audio_chunk` / `process_audio`
can return. -/
inductive VadResult
  | invalidAudio
  | sessionNotFound (sid : String)
  | speechStart (timestamp : Int) (confidence : ℝ) (sid : String)
  | speechEnd (timestamp : Int) (durationMs : Int) (sid : String)
  | vadUpdate (timestamp : Int) (isSpeaking : Bool) (sid : String)

/-- `UserSession.process_audio_chunk`.  `decoded` is the outcome of
`base64.b64decode(audio_data)`: `none` when decoding raises, otherwise the
decoded PCM bytes.  `now` is the wall clock, used both by
`update_activity` and as the chunk timestamp. -/
def processAudioChunk (web sil : List Int → Bool) (st : SessionState)
    (decoded : Option (List Int)) (now : Int) : VadResult × SessionState :=
  let st0 := { st with last_activity := now }
  match decoded with
  | none => (VadResult.invalidAudio, st0)
  | some data =>
    let run := runFrames web sil st0 now (chunkFrames st0.frame_size data)
    let results := run.1
    let st1 := run.2
    if results.length ≠ 0 then
      let sCount := (results.filter (fun r => r.is_speech)).length
      let ratio : ℝ := (sCount : ℝ) / (results.length : ℝ)
      let newSpeaking : Bool := rlt (1 / 2) ratio
      if newSpeaking && !st1.is_speaking then
        (VadResult.speechStart now ratio st1.session_id,
         { st1 with is_speaking := true, speech_start_time := now })
      else if !newSpeaking && st1.is_speaking then
        (VadResult.speechEnd now (now - st1.speech_start_time) st1.session_id,
         { st1 with is_speaking := false, speech_end_time := now })
      else (VadResult.vadUpdate now st1.is_speaking st1.session_id, st1)
    else (VadResult.vadUpdate now st1.is_speaking st1.session_id, st1)

/-! ### Session registry (`SocketVADService`) -/

/-- State of the `SocketVADService` registry: the `id → session` mapping
(an association list, most recent binding first) and the service-level
configuration passed to new sessions. -/
structure RegistryState where
  sessions : List (String × SessionState)
  config : SConfig

/-- Store (or replace) a session under an id. -/
def setSession (rst : RegistryState) (sid : String) (s : SessionState) : RegistryState :=
  { rst with sessions := (sid, s) :: rst.sessions.filter (fun p => p.1 ≠ sid) }

/-- `SocketVADService.get_or_create_session`.  `g` is the Silero singleton
cell; `freshId` models the `uuid.uuid4()` draw used when no session id is
supplied.  Returns `((id, session), registry, singleton)`. -/
def getOrCreateSession (rst : RegistryState) (g : Option SileroState)
    (sid? : Option String) (freshId : String) (now : Int) :
    (String × SessionState) × RegistryState × Option SileroState :=
  let found := match sid? with
    | some i => (rst.sessions.lookup i).map (fun s => (i, s))
    | none => none
  match found with
  | some (i, s) =>
    if isExpired s now then
      let made := newUserSession i rst.config now g
      ((i, made.1), setSession rst i made.1, made.2)
    else
      let s1 := { s with last_activity := now }
      ((i, s1), setSession rst i s1, g)
  | none =>
    let nid := sid?.getD freshId
    let made := newUserSession nid rst.config now g
    ((nid, made.1), setSession rst nid made.1, made.2)

/-- `SocketVADService.process_audio`: look the session up by id (no expiry
check) and delegate to `process_audio_chunk`, keeping the mutated session
in the mapping. -/
def processAudio (web sil : List Int → Bool) (rst : RegistryState) (sid : String)
    (decoded : Option (List Int)) (now : Int) : VadResult × RegistryState :=
  match rst.sessions.lookup sid with
  | some s =>
    let step := processAudioChunk web sil s decoded now
    (step.1, setSession rst sid step.2)
  | none => (VadResult.sessionNotFound sid, rst)

/-! ### Concrete objects used by witnesses and counterexamples -/

/-- A classifier oracle that never reports speech. -/
def oracleFalse : List Int → Bool := fun _ => false

/-- The socket configuration with every classifier disabled. -/
def cfgAllOff : SConfig :=
  { defaultSConfig with
    use_rms_vad := false, use_webrtc_vad := false, use_silero_vad := false }

/-- The default socket configuration at an 8 kHz sample rate. -/
def cfg8k : SConfig := { defaultSConfig with sample_rate := 8000 }

/-- A freshly created session (id `"s0"`, defaults, created at time 0). -/
def sampleSession : SessionState := (newUserSession "s0" defaultSConfig 0 none).1

/-- Number of full frames a decode outcome yields for a session. -/
def numFrames (s : SessionState) : Option (List Int) → Nat
  | none => 0
  | some d => (chunkFrames s.frame_size d).length

/-- The per-frame results produced while processing one decoded chunk. -/
def chunkVerdicts (web sil : List Int → Bool) (st : SessionState)
    (data : List Int) (now : Int) : List FrameResult :=
  (runFrames web sil { st with last_activity := now } now
    (chunkFrames st.frame_size data)).1

/-- Number of frame results classified as speech by the ensemble. -/
def speechCount (rs : List FrameResult) : Nat :=
  (rs.filter (fun r => r.is_speech)).length

/-- An empty registry with the default configuration. -/
def reg0 : RegistryState := { sessions := [], config := defaultSConfig }

/-- A registry holding `sampleSession` under id `"a"`. -/
def reg1 : RegistryState :=
  { sessions := [("a", sampleSession)], config := defaultSConfig }

/-- A calibrated analyzer state with the default noise profile
(`noise_floor = 0.02`, `std_dev = 0.01`, factor `1.5`), currently in
confirmed speech. -/
def readySpeaking : AState :=
  { samples := [], noise_floor := 0.02, std_dev := 0.01, sensitivity_factor := 1.5
    last_calibration_time := 0, calibration_complete := true, is_calibrating := false
    last_is_speech := true, consecutive_speech_frames := 3
    consecutive_silence_frames := 0, last_speech_time := 0, last_silence_time := 0 }

/-- A speaking analyzer state whose calibration flag is still down, so
the default threshold 0.1 applies. -/
def speakingNC : AState := { readySpeaking with calibration_complete := false }

end Csm

namespace Csm

/-! ### Basic lemmas about the embedding -/

theorem rlt_eq_true {a b : ℝ} : rlt a b = true ↔ a < b := by
  by_cases h : a < b <;> simp [rlt, h]

theorem rlt_eq_false {a b : ℝ} : rlt a b = false ↔ b ≤ a := by
  by_cases h : a < b
  · simp [rlt, h, not_le.mpr h]
  · simp [rlt, h, not_lt.mp h]

/-! ### C3: weighted ensemble voting -/

/-- C3.  When the enabled classifiers' weights sum to a positive total
(the claim's division presupposes a nonzero denominator, and the source
branches on exactly this condition), the ensemble score is the weighted
vote sum over the enabled classifiers divided by the sum of their
weights, and the decision is speech if and only if the score exceeds 1/2.
In particular, with the default configuration (all three classifiers
enabled, weights rms 0.2, webrtc 0.4, silero 0.4) and votes
rms = true, webrtc = false, silero = true, the score is exactly 0.6 and
the decision is speech. -/
theorem ensemble_weighted_vote (cfg : SConfig) (r w s : Bool)
    (hpos : 0 < totalWeight cfg) :
    (ensembleScore cfg r w s).1 = weightedSum cfg r w s / totalWeight cfg ∧
    ((ensembleScore cfg r w s).2 = true ↔
      1 / 2 < weightedSum cfg r w s / totalWeight cfg) ∧
    (ensembleScore defaultSConfig true false true).1 = 0.6 ∧
    (ensembleScore defaultSConfig true false true).2 = true := by
  refine ⟨?_, ?_, ?_, ?_⟩
  · simp [ensembleScore, hpos]
  · simp [ensembleScore, hpos, rlt_eq_true]
  · norm_num [ensembleScore, totalWeight, weightedSum, defaultSConfig]
  · norm_num [ensembleScore, totalWeight, weightedSum, defaultSConfig, rlt_eq_true]

theorem ensemble_weighted_vote_witness :
    (0 : ℝ) < totalWeight defaultSConfig ∧
    (ensembleScore defaultSConfig true false true).1 = 0.6 :=
  ⟨by norm_num [totalWeight, defaultSConfig],
   (ensemble_weighted_vote defaultSConfig true false true
      (by norm_num [totalWeight, defaultSConfig])).2.2.1⟩

/-! ### C8: fallback when no classifier is enabled -/

/-- C8 (amended).  When all three enable flags are false, the frame's
ensemble decision equals the RMS vote, but the ensemble score keeps its
initial value 0 — the score is 0 even when the RMS vote is true (the
claimed `score = 1` does not hold on the code). -/
theorem ensemble_fallback_rms (cfg : SConfig) (r w s : Bool)
    (h1 : cfg.use_rms_vad = false) (h2 : cfg.use_webrtc_vad = false)
    (h3 : cfg.use_silero_vad = false) :
    (ensembleScore cfg r w s).1 = 0 ∧ (ensembleScore cfg r w s).2 = r := by
  have ht : totalWeight cfg = 0 := by simp [totalWeight, h1, h2, h3]
  constructor <;> simp [ensembleScore, ht]

theorem ensemble_fallback_rms_witness :
    (ensembleScore cfgAllOff false true true).1 = 0 ∧
    (ensembleScore cfgAllOff false true true).2 = false :=
  ensemble_fallback_rms cfgAllOff false true true rfl rfl rfl

/-- C8 counterexample.  With every classifier disabled and a true RMS
vote, the returned ensemble score is 0, not the claimed 1 (the decision
does equal the RMS vote). -/
theorem ensemble_fallback_score_not_one :
    (ensembleScore cfgAllOff true false false).2 = true ∧
    (ensembleScore cfgAllOff true false false).1 = 0 ∧
    (ensembleScore cfgAllOff true false false).1 ≠ 1 := by
  refine ⟨?_, ?_, ?_⟩ <;>
    norm_num [ensembleScore, totalWeight, cfgAllOff, defaultSConfig]

/-! ### C6: chunks that fail base64 decoding -/

/-- C6 (amended).  A chunk whose payload fails base64 decoding yields the
error result and is dropped without classifying any frame; every field of
the session is left unchanged except `last_activity`, which
`update_activity()` refreshes to the current time before the decode is
attempted. -/
theorem decode_failure_drops_chunk (web sil : List Int → Bool)
    (st : SessionState) (now : Int) :
    processAudioChunk web sil st none now =
      (VadResult.invalidAudio, { st with last_activity := now }) := rfl

/-- C6 counterexample.  Processing an undecodable chunk at time 5 on a
session whose `last_activity` is 0 mutates the session: `last_activity`
becomes 5, so "no field of the session is mutated" fails. -/
theorem decode_failure_still_mutates_activity :
    ((processAudioChunk oracleFalse oracleFalse sampleSession none 5).2).last_activity = 5 ∧
    sampleSession.last_activity = 0 ∧
    (processAudioChunk oracleFalse oracleFalse sampleSession none 5).2 ≠ sampleSession := by
  refine ⟨rfl, rfl, ?_⟩
  intro h
  have h2 := congrArg SessionState.last_activity h
  rw [show ((processAudioChunk oracleFalse oracleFalse sampleSession none 5).2).last_activity
        = 5 from rfl,
      show sampleSession.last_activity = 0 from rfl] at h2
  exact absurd h2 (by decide)

/-! ### C9: the Silero VAD singleton -/

/-- C9.  `SileroVADService` is a process-wide singleton: constructing it
while an instance exists returns that instance unchanged, the supplied
configuration being ignored.  Hence every session shares the one
instance (buffer and sample rate): a second session created with a
different `sample_rate` still holds the first instance, whose rate is the
original 16000, not the requested 8000. -/
theorem silero_singleton_shared (g : Option SileroState) (inst : SileroState)
    (cfg : SConfig) (sid : String) (now : Int) (rate : Nat)
    (hg : g = some inst) (hsil : cfg.use_silero_vad = true) :
    sileroGetInstance g rate = inst ∧
    (newUserSession sid cfg now g).1.silero = some inst ∧
    (newUserSession sid cfg now g).2 = some inst ∧
    ((newUserSession "b" cfg8k 0 ((newUserSession "a" defaultSConfig 0 none).2)).1.silero
        = some (sileroInit 16000) ∧
      (sileroInit 16000).sample_rate = 16000 ∧ cfg8k.sample_rate = 8000) := by
  subst hg
  refine ⟨rfl, ?_, ?_, rfl, rfl, rfl⟩
  · simp [newUserSession, hsil, sileroGetInstance]
  · simp [newUserSession, hsil, sileroGetInstance]

theorem silero_singleton_shared_witness :
    (newUserSession "b" cfg8k 0 (some (sileroInit 16000))).1.silero
      = some (sileroInit 16000) ∧
    (sileroInit 16000).sample_rate = 16000 ∧ cfg8k.sample_rate = 8000 := by
  have h := silero_singleton_shared (some (sileroInit 16000)) (sileroInit 16000)
    cfg8k "b" 0 8000 rfl rfl
  exact ⟨h.2.1, h.2.2.2.2.1, h.2.2.2.2.2⟩

/-! ### C7: sensitivity-factor bounds and hysteresis -/

/-- C7 (amended).  The adaptive adjustment `_adjust_sensitivity_factor`
(the path taken by silent-period recalibration) keeps the sensitivity
factor within `[1.2, 2.5]` whenever it is already within those bounds,
and any change it makes has magnitude greater than 0.1.  Initialization
and `update_config`, by contrast, assign the configured
`initial_sensitivity_factor` directly, without clamping or hysteresis. -/
theorem adjust_sensitivity_bounded (s : AState)
    (h1 : 1.2 ≤ s.sensitivity_factor) (h2 : s.sensitivity_factor ≤ 2.5) :
    (1.2 ≤ (adjustSensitivityFactor s).1.sensitivity_factor ∧
      (adjustSensitivityFactor s).1.sensitivity_factor ≤ 2.5) ∧
    ((adjustSensitivityFactor s).1.sensitivity_factor ≠ s.sensitivity_factor →
      0.1 < |(adjustSensitivityFactor s).1.sensitivity_factor - s.sensitivity_factor|) := by
  unfold adjustSensitivityFactor
  split_ifs with hlo hd1 hhi hd2
  · refine ⟨⟨?_, ?_⟩, fun _ => ?_⟩
    · simp only [le_min_iff]
      constructor <;> nlinarith
    · exact min_le_left _ _
    · simpa using hd1
  · exact ⟨⟨h1, h2⟩, fun hne => absurd rfl hne⟩
  · refine ⟨⟨?_, ?_⟩, fun _ => ?_⟩
    · exact le_max_left _ _
    · simp only [max_le_iff]
      constructor <;> nlinarith
    · simpa using hd2
  · exact ⟨⟨h1, h2⟩, fun hne => absurd rfl hne⟩
  · exact ⟨⟨h1, h2⟩, fun hne => absurd rfl hne⟩

theorem adjust_sensitivity_bounded_witness :
    (1.2 : ℝ) ≤ readySpeaking.sensitivity_factor ∧
    readySpeaking.sensitivity_factor ≤ 2.5 ∧
    (1.2 ≤ (adjustSensitivityFactor readySpeaking).1.sensitivity_factor ∧
      (adjustSensitivityFactor readySpeaking).1.sensitivity_factor ≤ 2.5) := by
  have h := adjust_sensitivity_bounded readySpeaking
    (by norm_num [readySpeaking]) (by norm_num [readySpeaking])
  exact ⟨by norm_num [readySpeaking], by norm_num [readySpeaking], h.1⟩

/-- C7 counterexample.  `update_config` assigns the configured value
directly: updating with `initial_sensitivity_factor = 3` drives the
factor to 3, outside `[1.2, 2.5]`, and updating with `1.55` from the
default `1.5` changes it by only `0.05 < 0.1`, so the claimed invariant
fails on the configuration-update operation. -/
theorem sensitivity_config_update_violates :
    ((updateConfig defaultAConfig readySpeaking
        { initial_sensitivity_factor := some 3 }).2).sensitivity_factor = 3 ∧
    ¬ (((updateConfig defaultAConfig readySpeaking
        { initial_sensitivity_factor := some 3 }).2).sensitivity_factor ≤ 2.5) ∧
    ((updateConfig defaultAConfig readySpeaking
        { initial_sensitivity_factor := some 1.55 }).2).sensitivity_factor = 1.55 ∧
    |((updateConfig defaultAConfig readySpeaking
        { initial_sensitivity_factor := some 1.55 }).2).sensitivity_factor
      - readySpeaking.sensitivity_factor| < 0.1 ∧
    ((updateConfig defaultAConfig readySpeaking
        { initial_sensitivity_factor := some 1.55 }).2).sensitivity_factor
      ≠ readySpeaking.sensitivity_factor := by
  refine ⟨rfl, ?_, rfl, ?_, ?_⟩
  · norm_num [updateConfig, readySpeaking]
  · rw [show |((updateConfig defaultAConfig readySpeaking
        { initial_sensitivity_factor := some 1.55 }).2).sensitivity_factor
        - readySpeaking.sensitivity_factor| = |(1.55 : ℝ) - 1.5| from rfl, abs_lt]
    constructor <;> norm_num
  · norm_num [updateConfig, readySpeaking]

/-! ### Registry lemmas -/

theorem lookup_setSession (rst : RegistryState) (sid : String) (s : SessionState) :
    (setSession rst sid s).sessions.lookup sid = some s := by
  simp [setSession, List.lookup]

/-! ### C4: session lookup, reuse, and expiry-driven recreation -/

/-- C4.  `get_or_create_session` with no id creates, stores and returns a
new session under the freshly drawn id (fresh: not already a key, which
models `uuid4` uniqueness); with an id whose stored session is not yet
expired it refreshes `last_activity` and returns that very session, its
counters intact; with an id whose stored session has expired it builds,
stores and returns a brand-new session under that id with zeroed
counters. -/
theorem get_or_create_sessions (rst : RegistryState) (g : Option SileroState)
    (freshId i : String) (s : SessionState) (now : Int) :
    (rst.sessions.lookup freshId = none →
      ((getOrCreateSession rst g none freshId now).1.1 = freshId ∧
       (getOrCreateSession rst g none freshId now).1.2
          = (newUserSession freshId rst.config now g).1 ∧
       (getOrCreateSession rst g none freshId now).1.2.total_frames = 0 ∧
       (getOrCreateSession rst g none freshId now).1.2.speech_frames = 0 ∧
       (getOrCreateSession rst g none freshId now).2.1.sessions.lookup freshId
          = some (getOrCreateSession rst g none freshId now).1.2)) ∧
    (rst.sessions.lookup i = some s → isExpired s now = false →
      ((getOrCreateSession rst g (some i) freshId now).1.1 = i ∧
       (getOrCreateSession rst g (some i) freshId now).1.2
          = { s with last_activity := now } ∧
       (getOrCreateSession rst g (some i) freshId now).1.2.total_frames
          = s.total_frames ∧
       (getOrCreateSession rst g (some i) freshId now).1.2.speech_frames
          = s.speech_frames ∧
       (getOrCreateSession rst g (some i) freshId now).2.1.sessions.lookup i
          = some (getOrCreateSession rst g (some i) freshId now).1.2)) ∧
    (rst.sessions.lookup i = some s → isExpired s now = true →
      ((getOrCreateSession rst g (some i) freshId now).1.1 = i ∧
       (getOrCreateSession rst g (some i) freshId now).1.2
          = (newUserSession i rst.config now g).1 ∧
       (getOrCreateSession rst g (some i) freshId now).1.2.total_frames = 0 ∧
       (getOrCreateSession rst g (some i) freshId now).1.2.speech_frames = 0 ∧
       (getOrCreateSession rst g (some i) freshId now).2.1.sessions.lookup i
          = some (getOrCreateSession rst g (some i) freshId now).1.2)) := by
  refine ⟨fun _ => ?_, fun hfound hlive => ?_, fun hfound hexp => ?_⟩
  · exact ⟨rfl, rfl, rfl, rfl, lookup_setSession ..⟩
  · have heq : getOrCreateSession rst g (some i) freshId now
        = ((i, { s with last_activity := now }),
           setSession rst i { s with last_activity := now }, g) := by
      simp [getOrCreateSession, hfound, hlive]
    rw [heq]
    exact ⟨rfl, rfl, rfl, rfl, lookup_setSession ..⟩
  · have heq : getOrCreateSession rst g (some i) freshId now
        = ((i, (newUserSession i rst.config now g).1),
           setSession rst i (newUserSession i rst.config now g).1,
           (newUserSession i rst.config now g).2) := by
      simp [getOrCreateSession, hfound, hexp]
    rw [heq]
    exact ⟨rfl, rfl, rfl, rfl, lookup_setSession ..⟩

theorem get_or_create_sessions_witness :
    ((getOrCreateSession reg0 none none "f" 0).1.1 = "f" ∧
     (getOrCreateSession reg0 none none "f" 0).1.2.total_frames = 0) ∧
    ((getOrCreateSession reg1 none (some "a") "f" 5).1.2
        = { sampleSession with last_activity := 5 }) ∧
    ((getOrCreateSession reg1 none (some "a") "f" 1000000).1.2.total_frames = 0 ∧
     (getOrCreateSession reg1 none (some "a") "f" 1000000).1.2
        = (newUserSession "a" defaultSConfig 1000000 none).1) := by
  have hA := (get_or_create_sessions reg0 none "f" "a" sampleSession 0).1 rfl
  have hB := (get_or_create_sessions reg1 none "f" "a" sampleSession 5).2.1 rfl rfl
  have hC :=
    (get_or_create_sessions reg1 none "f" "a" sampleSession 1000000).2.2 rfl rfl
  exact ⟨⟨hA.1, hA.2.2.1⟩, hB.2.1, hC.2.2.1, hC.2.1⟩

/-! ### Frame-processing preservation lemmas -/

theorem processFrame_state (web sil : List Int → Bool) (st : SessionState)
    (f : List Int) (ts : Int) :
    (processFrame web sil st f ts).2.session_id = st.session_id ∧
    (processFrame web sil st f ts).2.created_at = st.created_at ∧
    (processFrame web sil st f ts).2.last_activity = st.last_activity ∧
    (processFrame web sil st f ts).2.config = st.config ∧
    (processFrame web sil st f ts).2.acfg = st.acfg ∧
    (processFrame web sil st f ts).2.frame_size = st.frame_size ∧
    (processFrame web sil st f ts).2.max_frames = st.max_frames ∧
    (processFrame web sil st f ts).2.is_speaking = st.is_speaking ∧
    (processFrame web sil st f ts).2.speech_start_time = st.speech_start_time ∧
    (processFrame web sil st f ts).2.speech_end_time = st.speech_end_time ∧
    (processFrame web sil st f ts).2.silero = st.silero ∧
    (processFrame web sil st f ts).2.total_frames = st.total_frames + 1 ∧
    st.speech_frames ≤ (processFrame web sil st f ts).2.speech_frames :=
  ⟨rfl, rfl, rfl, rfl, rfl, rfl, rfl, rfl, rfl, rfl, rfl, rfl, Nat.le_add_right _ _⟩

theorem runFrames_state (web sil : List Int → Bool) (ts : Int) :
    ∀ (fs : List (List Int)) (st : SessionState),
    (runFrames web sil st ts fs).2.session_id = st.session_id ∧
    (runFrames web sil st ts fs).2.created_at = st.created_at ∧
    (runFrames web sil st ts fs).2.last_activity = st.last_activity ∧
    (runFrames web sil st ts fs).2.config = st.config ∧
    (runFrames web sil st ts fs).2.is_speaking = st.is_speaking ∧
    (runFrames web sil st ts fs).2.speech_start_time = st.speech_start_time ∧
    (runFrames web sil st ts fs).2.total_frames = st.total_frames + fs.length ∧
    st.speech_frames ≤ (runFrames web sil st ts fs).2.speech_frames ∧
    (runFrames web sil st ts fs).1.length = fs.length
  | [], st => by simp [runFrames]
  | f :: fs, st => by
    have hf := processFrame_state web sil st f ts
    have ih := runFrames_state web sil ts fs (processFrame web sil st f ts).2
    simp only [runFrames, List.length_cons]
    refine ⟨?_, ?_, ?_, ?_, ?_, ?_, ?_, ?_, ?_⟩
    · rw [ih.1, hf.1]
    · rw [ih.2.1, hf.2.1]
    · rw [ih.2.2.1, hf.2.2.1]
    · rw [ih.2.2.2.1, hf.2.2.2.1]
    · rw [ih.2.2.2.2.1, hf.2.2.2.2.2.2.2.1]
    · rw [ih.2.2.2.2.2.1, hf.2.2.2.2.2.2.2.2.1]
    · rw [ih.2.2.2.2.2.2.1, hf.2.2.2.2.2.2.2.2.2.2.2.1]
      omega
    · exact le_trans hf.2.2.2.2.2.2.2.2.2.2.2.2 ih.2.2.2.2.2.2.2.1
    · rw [ih.2.2.2.2.2.2.2.2]

/-- State facts about `process_audio_chunk`, independent of the branch
taken: identity and configuration survive, `last_activity` becomes `now`,
`total_frames` grows by the number of full frames, `speech_frames` never
decreases. -/
theorem processAudioChunk_state (web sil : List Int → Bool) (st : SessionState)
    (decoded : Option (List Int)) (now : Int) :
    (processAudioChunk web sil st decoded now).2.session_id = st.session_id ∧
    (processAudioChunk web sil st decoded now).2.created_at = st.created_at ∧
    (processAudioChunk web sil st decoded now).2.config = st.config ∧
    (processAudioChunk web sil st decoded now).2.last_activity = now ∧
    (processAudioChunk web sil st decoded now).2.total_frames
      = st.total_frames + numFrames st decoded ∧
    st.speech_frames ≤ (processAudioChunk web sil st decoded now).2.speech_frames := by
  cases decoded with
  | none => exact ⟨rfl, rfl, rfl, rfl, rfl, le_refl _⟩
  | some d =>
    have hr := runFrames_state web sil now (chunkFrames st.frame_size d)
      { st with last_activity := now }
    simp only [processAudioChunk]
    split_ifs with h1 h2 h3 <;>
      simp only [numFrames] <;>
      exact ⟨hr.1, hr.2.1, hr.2.2.2.1, hr.2.2.1, hr.2.2.2.2.2.2.1,
        hr.2.2.2.2.2.2.2.1⟩

/-! ### C10: processing never checks expiry -/

/-- C10.  For a session id still present in the mapping, `process_audio`
processes the chunk even when the session is already expired: the result
is the chunk-processing result (never `SessionNotFound`), the mutated
session stays in the mapping, its `last_activity` is refreshed to `now`
(so it is no longer expired, given a nonnegative timeout), and its
counters continue from their old values rather than being reset — and an
undecodable chunk leaves everything but `last_activity` intact. -/
theorem process_audio_ignores_expiry (web sil : List Int → Bool)
    (rst : RegistryState) (sid : String) (s : SessionState)
    (decoded : Option (List Int)) (now : Int)
    (hfound : rst.sessions.lookup sid = some s)
    (hexp : isExpired s now = true)
    (htime : 0 ≤ s.config.session_timeout_ms) :
    (processAudio web sil rst sid decoded now).1
        = (processAudioChunk web sil s decoded now).1 ∧
    (processAudio web sil rst sid decoded now).1 ≠ VadResult.sessionNotFound sid ∧
    (processAudio web sil rst sid decoded now).2.sessions.lookup sid
        = some (processAudioChunk web sil s decoded now).2 ∧
    (processAudioChunk web sil s decoded now).2.last_activity = now ∧
    isExpired (processAudioChunk web sil s decoded now).2 now = false ∧
    (processAudioChunk web sil s decoded now).2.total_frames
        = s.total_frames + numFrames s decoded ∧
    (processAudioChunk web sil s decoded now).2.session_id = s.session_id ∧
    (processAudioChunk web sil s decoded now).2.created_at = s.created_at ∧
    s.speech_frames ≤ (processAudioChunk web sil s decoded now).2.speech_frames ∧
    (decoded = none →
      (processAudioChunk web sil s decoded now).2 = { s with last_activity := now }) := by
  have hst := processAudioChunk_state web sil s decoded now
  have hres : processAudio web sil rst sid decoded now
      = ((processAudioChunk web sil s decoded now).1,
         setSession rst sid (processAudioChunk web sil s decoded now).2) := by
    simp [processAudio, hfound]
  refine ⟨by rw [hres], ?_, ?_, hst.2.2.2.1, ?_, hst.2.2.2.2.1, hst.1, hst.2.1,
    hst.2.2.2.2.2, ?_⟩
  · rw [hres]
    intro hcon
    cases decoded with
    | none => exact VadResult.noConfusion hcon
    | some d =>
      simp only [processAudioChunk] at hcon
      split_ifs at hcon <;> exact VadResult.noConfusion hcon
  · rw [hres]
    exact lookup_setSession ..
  · rw [isExpired, hst.2.2.1, hst.2.2.2.1]
    simp only [sub_self, decide_eq_false_iff_not, not_lt]
    exact htime
  · intro hd
    subst hd
    rfl

/-! ### Chunk framing lemmas -/

theorem chunkFrames_length (fs : Nat) (hfs : 0 < fs) (data : List Int) :
    (chunkFrames fs data).length = data.length / fs := by
  rw [chunkFrames]
  split_ifs with h
  · rw [List.length_cons, chunkFrames_length fs hfs (data.drop fs), List.length_drop,
      Nat.div_eq_sub_div hfs h.2]
  · have hlt : data.length < fs := by
      rcases not_and_or.mp h with h' | h'
      · exact absurd hfs h'
      · exact Nat.lt_of_not_le h'
    rw [Nat.div_eq_of_lt hlt, List.length_nil]
termination_by data.length
decreasing_by
  simp only [List.length_drop]
  omega

theorem chunkFrames_frame_length (fs : Nat) (data : List Int) :
    ∀ f ∈ chunkFrames fs data, f.length = fs := by
  rw [chunkFrames]
  split_ifs with h
  · intro f hf
    rcases List.mem_cons.mp hf with rfl | hf'
    · rw [List.length_take]
      exact min_eq_left h.2
    · exact chunkFrames_frame_length fs (data.drop fs) f hf'
  · intro f hf
    exact absurd hf (List.not_mem_nil f)
termination_by data.length
decreasing_by
  simp only [List.length_drop]
  omega

theorem process_audio_ignores_expiry_witness :
    isExpired sampleSession 1000000 = true ∧
    (processAudio oracleFalse oracleFalse reg1 "a" none 1000000).1
        ≠ VadResult.sessionNotFound "a" ∧
    (processAudioChunk oracleFalse oracleFalse sampleSession none 1000000).2
        = { sampleSession with last_activity := 1000000 } := by
  have h := process_audio_ignores_expiry oracleFalse oracleFalse reg1 "a"
    sampleSession none 1000000 rfl rfl (by decide)
  exact ⟨rfl, h.2.1, h.2.2.2.2.2.2.2.2.2 rfl⟩

/-! ### C2: the chunk-level speech/silence state machine -/

/-- C2.  For a decodable chunk: trailing bytes short of a full frame are
dropped un-padded (the frame count is `⌊bytes / frameSize⌋` and every
frame has exactly `frameSize` bytes); with `n ≥ 1` frames of which
`s` are ensemble speech, a Silent session with `s/n > 1/2` transitions to
Speaking, records `speech_start_time = now` and returns `speech_start`
with confidence `s/n`; a Speaking session with `s/n ≤ 1/2` transitions to
Silent and returns `speech_end` with duration `now - speech_start_time`;
otherwise (the new ratio verdict agreeing with the current state) the
current-state `vad_update` is returned with the speaking state unchanged;
and a chunk with zero full frames causes no transition and returns the
current-state `vad_update`. -/
theorem chunk_state_machine (web sil : List Int → Bool) (st : SessionState)
    (data : List Int) (now : Int) (hfs : 0 < st.frame_size) :
    ((chunkFrames st.frame_size data).length = data.length / st.frame_size ∧
      ∀ f ∈ chunkFrames st.frame_size data, f.length = st.frame_size) ∧
    (1 ≤ (chunkFrames st.frame_size data).length → st.is_speaking = false →
      1 / 2 < (speechCount (chunkVerdicts web sil st data now) : ℝ) /
          ((chunkFrames st.frame_size data).length : ℝ) →
      ((processAudioChunk web sil st (some data) now).1
          = VadResult.speechStart now
              ((speechCount (chunkVerdicts web sil st data now) : ℝ) /
                ((chunkFrames st.frame_size data).length : ℝ)) st.session_id ∧
        (processAudioChunk web sil st (some data) now).2.is_speaking = true ∧
        (processAudioChunk web sil st (some data) now).2.speech_start_time = now)) ∧
    (1 ≤ (chunkFrames st.frame_size data).length → st.is_speaking = true →
      (speechCount (chunkVerdicts web sil st data now) : ℝ) /
          ((chunkFrames st.frame_size data).length : ℝ) ≤ 1 / 2 →
      ((processAudioChunk web sil st (some data) now).1
          = VadResult.speechEnd now (now - st.speech_start_time) st.session_id ∧
        (processAudioChunk web sil st (some data) now).2.is_speaking = false)) ∧
    (1 ≤ (chunkFrames st.frame_size data).length →
      (1 / 2 < (speechCount (chunkVerdicts web sil st data now) : ℝ) /
          ((chunkFrames st.frame_size data).length : ℝ) ↔ st.is_speaking = true) →
      ((processAudioChunk web sil st (some data) now).1
          = VadResult.vadUpdate now st.is_speaking st.session_id ∧
        (processAudioChunk web sil st (some data) now).2.is_speaking
          = st.is_speaking)) ∧
    ((chunkFrames st.frame_size data).length = 0 →
      ((processAudioChunk web sil st (some data) now).1
          = VadResult.vadUpdate now st.is_speaking st.session_id ∧
        (processAudioChunk web sil st (some data) now).2
          = { st with last_activity := now })) := by
  have hpres := runFrames_state web sil now (chunkFrames st.frame_size data)
    { st with last_activity := now }
  have hsid := hpres.1
  have hspk := hpres.2.2.2.2.1
  have hsst := hpres.2.2.2.2.2.1
  have hlen := hpres.2.2.2.2.2.2.2.2
  refine ⟨⟨chunkFrames_length st.frame_size hfs data,
      chunkFrames_frame_length st.frame_size data⟩,
    fun hn h0 hr => ?_, fun hn h1 hr => ?_, fun hn hiff => ?_, fun hn => ?_⟩
  · simp only [speechCount, chunkVerdicts] at hr
    simp only [processAudioChunk, speechCount, chunkVerdicts]
    set R := runFrames web sil { st with last_activity := now } now
      (chunkFrames st.frame_size data)
    clear_value R
    obtain ⟨rs, st1⟩ := R
    dsimp only at hsid hspk hsst hlen hr ⊢
    have hne : rs.length ≠ 0 := by rw [hlen]; omega
    rw [if_pos hne]
    have hb : (rlt (1 / 2)
          (((rs.filter (fun r => r.is_speech)).length : ℝ) / (rs.length : ℝ))
        && !st1.is_speaking) = true := by
      rw [hspk, h0, rlt_eq_true.mpr (by rw [hlen]; exact hr)]
      rfl
    rw [hb, if_pos rfl]
    dsimp only
    rw [hlen, hsid]
    exact ⟨rfl, rfl, rfl⟩
  · simp only [speechCount, chunkVerdicts] at hr
    simp only [processAudioChunk, speechCount, chunkVerdicts]
    set R := runFrames web sil { st with last_activity := now } now
      (chunkFrames st.frame_size data)
    clear_value R
    obtain ⟨rs, st1⟩ := R
    dsimp only at hsid hspk hsst hlen hr ⊢
    have hne : rs.length ≠ 0 := by rw [hlen]; omega
    rw [if_pos hne]
    have hrltf : rlt (1 / 2)
        (((rs.filter (fun r => r.is_speech)).length : ℝ) / (rs.length : ℝ)) = false := by
      rw [rlt_eq_false, hlen]
      exact hr
    have hb1 : (rlt (1 / 2)
          (((rs.filter (fun r => r.is_speech)).length : ℝ) / (rs.length : ℝ))
        && !st1.is_speaking) = false := by
      rw [hrltf]
      rfl
    have hb2 : (!rlt (1 / 2)
          (((rs.filter (fun r => r.is_speech)).length : ℝ) / (rs.length : ℝ))
        && st1.is_speaking) = true := by
      rw [hrltf, hspk, h1]
      rfl
    rw [hb1, if_neg (by simp), hb2, if_pos rfl]
    dsimp only
    rw [hsid, hsst]
    exact ⟨rfl, rfl⟩
  · simp only [speechCount, chunkVerdicts] at hiff
    simp only [processAudioChunk, speechCount, chunkVerdicts]
    set R := runFrames web sil { st with last_activity := now } now
      (chunkFrames st.frame_size data)
    clear_value R
    obtain ⟨rs, st1⟩ := R
    dsimp only at hsid hspk hsst hlen hiff ⊢
    have hne : rs.length ≠ 0 := by rw [hlen]; omega
    rw [if_pos hne]
    cases hsp : st.is_speaking with
    | true =>
      have hrlt : rlt (1 / 2)
          (((rs.filter (fun r => r.is_speech)).length : ℝ) / (rs.length : ℝ)) = true := by
        rw [rlt_eq_true, hlen]
        exact hiff.mpr hsp
      have hb1 : (rlt (1 / 2)
            (((rs.filter (fun r => r.is_speech)).length : ℝ) / (rs.length : ℝ))
          && !st1.is_speaking) = false := by
        rw [hrlt, hspk, hsp]
        rfl
      have hb2 : (!rlt (1 / 2)
            (((rs.filter (fun r => r.is_speech)).length : ℝ) / (rs.length : ℝ))
          && st1.is_speaking) = false := by
        rw [hrlt]
        rfl
      rw [hb1, if_neg (by simp), hb2, if_neg (by simp)]
      dsimp only
      rw [hsid, hspk, hsp]
      exact ⟨rfl, rfl⟩
    | false =>
      have hrlt : rlt (1 / 2)
          (((rs.filter (fun r => r.is_speech)).length : ℝ) / (rs.length : ℝ))
          = false := by
        rw [rlt_eq_false, hlen]
        by_contra hc
        exact absurd (hiff.mp (not_le.mp fun hle => hc hle)) (by simp [hsp])
      have hb1 : (rlt (1 / 2)
            (((rs.filter (fun r => r.is_speech)).length : ℝ) / (rs.length : ℝ))
          && !st1.is_speaking) = false := by
        rw [hrlt]
        rfl
      have hb2 : (!rlt (1 / 2)
            (((rs.filter (fun r => r.is_speech)).length : ℝ) / (rs.length : ℝ))
          && st1.is_speaking) = false := by
        rw [hrlt, hspk, hsp]
        rfl
      rw [hb1, if_neg (by simp), hb2, if_neg (by simp)]
      dsimp only
      rw [hsid, hspk, hsp]
      exact ⟨rfl, rfl⟩
  · have hempty : chunkFrames st.frame_size data = [] := List.length_eq_zero.mp hn
    simp only [processAudioChunk, hempty, runFrames, ne_eq, List.length_nil,
      not_true_eq_false, if_false]
    exact ⟨by trivial, by trivial⟩

theorem chunk_state_machine_witness :
    0 < sampleSession.frame_size ∧
    (chunkFrames sampleSession.frame_size []).length = 0 ∧
    (processAudioChunk oracleFalse oracleFalse sampleSession (some []) 7).1
        = VadResult.vadUpdate 7 sampleSession.is_speaking sampleSession.session_id ∧
    (processAudioChunk oracleFalse oracleFalse sampleSession (some []) 7).2
        = { sampleSession with last_activity := 7 } := by
  have hfs : 0 < sampleSession.frame_size := by decide
  have hz : (chunkFrames sampleSession.frame_size []).length = 0 := by
    rw [chunkFrames_length sampleSession.frame_size hfs]
    simp
  have h := (chunk_state_machine oracleFalse oracleFalse sampleSession [] 7 hfs).2.2.2.2 hz
  exact ⟨hfs, hz, h.1, h.2⟩

/-! ### Analyzer run lemmas -/

theorem runAnalyzer_append (cfg : AConfig) :
    ∀ (a b : List (ℝ × Int)) (s : AState),
    runAnalyzer cfg s (a ++ b)
      = ((runAnalyzer cfg s a).1
          ++ (runAnalyzer cfg (runAnalyzer cfg s a).2 b).1,
         (runAnalyzer cfg (runAnalyzer cfg s a).2 b).2)
  | [], b, s => by simp [runAnalyzer]
  | (l, t) :: a, b, s => by
    have ih := runAnalyzer_append cfg a b (addAudioSample cfg s l t t).2.1
    simp [runAnalyzer, ih]

theorem runAnalyzer_length (cfg : AConfig) :
    ∀ (w : List (ℝ × Int)) (s : AState),
    (runAnalyzer cfg s w).1.length = w.length
  | [], s => rfl
  | (l, t) :: w, s => by
    simp only [runAnalyzer, List.length_cons]
    rw [runAnalyzer_length cfg w (addAudioSample cfg s l t t).2.1]

theorem countSpeechEnd_append (a b : List (AResult × List AEvent)) :
    countSpeechEnd (a ++ b) = countSpeechEnd a + countSpeechEnd b := by
  simp [countSpeechEnd]

theorem runAnalyzer_single (cfg : AConfig) (s : AState) (l : ℝ) (t : Int) :
    runAnalyzer cfg s [(l, t)]
      = ([((addAudioSample cfg s l t t).1, (addAudioSample cfg s l t t).2.2)],
         (addAudioSample cfg s l t t).2.1) := rfl

/-- While the analyzer is calibrating and every timestamp stays inside
the calibration window, each sample is appended to the sample set, every
returned result has `is_speech = false`, and nothing else changes. -/
theorem runAnalyzer_calibrating (cfg : AConfig) :
    ∀ (pre : List (ℝ × Int)) (s : AState),
    s.is_calibrating = true →
    (∀ p ∈ pre, p.2 - s.last_calibration_time < cfg.calibration_duration_ms) →
    runAnalyzer cfg s pre
      = (pre.map (fun p =>
            (({ level := p.1, threshold := 0, is_speech := false,
                timestamp := p.2 } : AResult), ([] : List AEvent))),
         { s with samples := s.samples ++ pre.map Prod.fst })
  | [], s, hcal, hpre => by simp [runAnalyzer]
  | (l, t) :: rest, s, hcal, hpre => by
    have hlt : t - s.last_calibration_time < cfg.calibration_duration_ms :=
      hpre (l, t) (List.mem_cons_self _ _)
    have hstep : addAudioSample cfg s l t t
        = ({ level := l, threshold := 0, is_speech := false, timestamp := t },
           { s with samples := s.samples ++ [l] }, []) := by
      simp only [addAudioSample, hcal, if_true]
      rw [if_neg (not_le.mpr hlt)]
    have hrest : ∀ p ∈ rest,
        p.2 - ({ s with samples := s.samples ++ [l] } : AState).last_calibration_time
          < cfg.calibration_duration_ms :=
      fun p hp => hpre p (List.mem_cons_of_mem _ hp)
    have ih := runAnalyzer_calibrating cfg rest { s with samples := s.samples ++ [l] }
      hcal hrest
    simp only [runAnalyzer, hstep, ih, List.map_cons]
    simp [List.append_assoc]

/-- The sample that ends the calibration window: it is appended, then
`_complete_calibration` runs and the `calibration-complete` event fires;
the result still reports `is_speech = false`. -/
theorem addAudioSample_completes (cfg : AConfig) (s : AState) (l : ℝ) (t rnow : Int)
    (hcal : s.is_calibrating = true)
    (hdur : cfg.calibration_duration_ms ≤ t - s.last_calibration_time) :
    addAudioSample cfg s l t rnow
      = ({ level := l, threshold := 0, is_speech := false, timestamp := t },
         completeCalibration { s with samples := s.samples ++ [l] },
         [AEvent.calibrationComplete]) := by
  simp only [addAudioSample, hcal, if_true]
  rw [if_pos hdur]

/-! ### C1: the calibration window -/

/-- C1.  Starting from a freshly calibrating analyzer, feed samples whose
timestamps stay strictly inside the calibration window followed by a
first sample at or past `calibration_duration_ms`: every result returned
during calibration has `is_speech = false`; on that first late sample
`calibration_complete` becomes true (and calibrating ends); the noise
floor and standard deviation are the mean and the sample standard
deviation of all the collected samples when at least 5 were collected,
and the defaults `0.02` / `0.01` otherwise; and from then on the
threshold is exactly `noise_floor + std_dev * sensitivity_factor` (the
last conjunct states this for every completed state, hence "thereafter"). -/
theorem calibration_window_spec (cfg : AConfig) (s0 : AState)
    (pre : List (ℝ × Int)) (lp : ℝ × Int)
    (hcal : s0.is_calibrating = true) (hsamp : s0.samples = [])
    (hpre : ∀ p ∈ pre, p.2 - s0.last_calibration_time < cfg.calibration_duration_ms)
    (hlast : cfg.calibration_duration_ms ≤ lp.2 - s0.last_calibration_time) :
    (∀ r ∈ (runAnalyzer cfg s0 (pre ++ [lp])).1, r.1.is_speech = false) ∧
    (runAnalyzer cfg s0 (pre ++ [lp])).2.calibration_complete = true ∧
    (runAnalyzer cfg s0 (pre ++ [lp])).2.is_calibrating = false ∧
    (5 ≤ pre.length + 1 →
      (runAnalyzer cfg s0 (pre ++ [lp])).2.noise_floor
          = mean ((pre ++ [lp]).map Prod.fst) ∧
      (runAnalyzer cfg s0 (pre ++ [lp])).2.std_dev
          = stdev ((pre ++ [lp]).map Prod.fst)) ∧
    (pre.length + 1 < 5 →
      (runAnalyzer cfg s0 (pre ++ [lp])).2.noise_floor = 0.02 ∧
      (runAnalyzer cfg s0 (pre ++ [lp])).2.std_dev = 0.01) ∧
    getCurrentThreshold (runAnalyzer cfg s0 (pre ++ [lp])).2
      = (runAnalyzer cfg s0 (pre ++ [lp])).2.noise_floor
        + (runAnalyzer cfg s0 (pre ++ [lp])).2.std_dev
          * (runAnalyzer cfg s0 (pre ++ [lp])).2.sensitivity_factor ∧
    (∀ u : AState, u.calibration_complete = true →
      getCurrentThreshold u = u.noise_floor + u.std_dev * u.sensitivity_factor) := by
  obtain ⟨l, t⟩ := lp
  have hprerun := runAnalyzer_calibrating cfg pre s0 hcal hpre
  have hS : ({ s0 with samples := s0.samples ++ pre.map Prod.fst } : AState).samples ++ [l]
      = pre.map Prod.fst ++ [l] := by
    rw [show ({ s0 with samples := s0.samples ++ pre.map Prod.fst } : AState).samples
        = s0.samples ++ pre.map Prod.fst from rfl, hsamp, List.nil_append]
  have hrun : runAnalyzer cfg s0 (pre ++ [(l, t)])
      = (pre.map (fun p =>
            (({ level := p.1, threshold := 0, is_speech := false,
                timestamp := p.2 } : AResult), ([] : List AEvent)))
          ++ [({ level := l, threshold := 0, is_speech := false, timestamp := t },
               [AEvent.calibrationComplete])],
         completeCalibration { s0 with samples := pre.map Prod.fst ++ [l] }) := by
    rw [runAnalyzer_append cfg pre [(l, t)] s0, hprerun, runAnalyzer_single]
    dsimp only
    rw [addAudioSample_completes cfg
      { s0 with samples := s0.samples ++ pre.map Prod.fst } l t t hcal hlast]
    dsimp only
    rw [hS]
  have hlev : (pre.map Prod.fst ++ [l])
      = ((pre ++ [(l, t)]).map Prod.fst) := by simp
  have hlenlev : (pre.map Prod.fst ++ [l]).length = pre.length + 1 := by simp
  refine ⟨?_, ?_, ?_, fun h5 => ?_, fun h5 => ?_, ?_, fun u hu => ?_⟩
  · intro r hr
    rw [hrun] at hr
    rcases List.mem_append.mp hr with hr | hr
    · rcases List.mem_map.mp hr with ⟨p, _, rfl⟩
      rfl
    · rcases List.mem_singleton.mp hr with rfl
      rfl
  · rw [hrun, completeCalibration]
    split_ifs <;> rfl
  · rw [hrun, completeCalibration]
    split_ifs <;> rfl
  · rw [hrun, completeCalibration]
    rw [if_pos (by simpa [hlenlev] using h5)]
    constructor
    · simpa using congrArg mean hlev
    · rw [if_pos (by simp only [hlenlev]; omega)]
      simpa using congrArg stdev hlev
  · rw [hrun, completeCalibration]
    rw [if_neg (by simp only [hlenlev]; omega)]
    exact ⟨rfl, rfl⟩
  · rw [hrun, getCurrentThreshold]
    rw [if_pos (by rw [completeCalibration]; split_ifs <;> rfl)]
  · rw [getCurrentThreshold, if_pos hu]

theorem calibration_window_spec_witness :
    (runAnalyzer defaultAConfig (initAState defaultAConfig 0)
        [((0.01 : ℝ), (100 : Int)), (0.01, 200), (0.01, 2000)]).2.calibration_complete
      = true ∧
    (runAnalyzer defaultAConfig (initAState defaultAConfig 0)
        [((0.01 : ℝ), (100 : Int)), (0.01, 200), (0.01, 2000)]).2.noise_floor = 0.02 ∧
    (runAnalyzer defaultAConfig (initAState defaultAConfig 0)
        [((0.01 : ℝ), (100 : Int)), (0.01, 200), (0.01, 2000)]).2.std_dev = 0.01 ∧
    getCurrentThreshold (runAnalyzer defaultAConfig (initAState defaultAConfig 0)
        [((0.01 : ℝ), (100 : Int)), (0.01, 200), (0.01, 2000)]).2
      = 0.02 + 0.01 * 1.5 := by
  have h := calibration_window_spec defaultAConfig (initAState defaultAConfig 0)
    [((0.01 : ℝ), (100 : Int)), (0.01, 200)] ((0.01 : ℝ), (2000 : Int))
    rfl rfl (by decide) (by decide)
  simp only [List.cons_append, List.nil_append] at h
  have hsmall := h.2.2.2.2.1 (by decide)
  have hsf : (runAnalyzer defaultAConfig (initAState defaultAConfig 0)
      [((0.01 : ℝ), (100 : Int)), (0.01, 200), (0.01, 2000)]).2.sensitivity_factor
      = 1.5 := rfl
  refine ⟨h.2.1, hsmall.1, hsmall.2, ?_⟩
  rw [h.2.2.2.2.2.1, hsmall.1, hsmall.2, hsf]

/-! ### Silent-step lemmas for the debounced speech-end transition -/

theorem adjustSensitivityFactor_preserves (s : AState) :
    (adjustSensitivityFactor s).1.last_is_speech = s.last_is_speech ∧
    (adjustSensitivityFactor s).1.is_calibrating = s.is_calibrating ∧
    (adjustSensitivityFactor s).1.calibration_complete = s.calibration_complete ∧
    (adjustSensitivityFactor s).1.consecutive_speech_frames
      = s.consecutive_speech_frames ∧
    (adjustSensitivityFactor s).1.consecutive_silence_frames
      = s.consecutive_silence_frames ∧
    (adjustSensitivityFactor s).2.count AEvent.speechEnd = 0 := by
  unfold adjustSensitivityFactor
  split_ifs <;> exact ⟨rfl, rfl, rfl, rfl, rfl, rfl⟩

theorem recalibrate_preserves (cfg : AConfig) (s : AState) (rnow : Int) :
    (recalibrateFromRecentSilence cfg s rnow).1.last_is_speech = s.last_is_speech ∧
    (recalibrateFromRecentSilence cfg s rnow).1.is_calibrating = s.is_calibrating ∧
    (recalibrateFromRecentSilence cfg s rnow).1.calibration_complete
      = s.calibration_complete ∧
    (recalibrateFromRecentSilence cfg s rnow).1.consecutive_speech_frames
      = s.consecutive_speech_frames ∧
    (recalibrateFromRecentSilence cfg s rnow).1.consecutive_silence_frames
      = s.consecutive_silence_frames ∧
    (recalibrateFromRecentSilence cfg s rnow).2.count AEvent.speechEnd = 0 := by
  have key : ∀ r : AState,
      r.last_is_speech = s.last_is_speech →
      r.is_calibrating = s.is_calibrating →
      r.calibration_complete = s.calibration_complete →
      r.consecutive_speech_frames = s.consecutive_speech_frames →
      r.consecutive_silence_frames = s.consecutive_silence_frames →
      (adjustSensitivityFactor r).1.last_is_speech = s.last_is_speech ∧
      (adjustSensitivityFactor r).1.is_calibrating = s.is_calibrating ∧
      (adjustSensitivityFactor r).1.calibration_complete = s.calibration_complete ∧
      (adjustSensitivityFactor r).1.consecutive_speech_frames
        = s.consecutive_speech_frames ∧
      (adjustSensitivityFactor r).1.consecutive_silence_frames
        = s.consecutive_silence_frames ∧
      (adjustSensitivityFactor r).2.count AEvent.speechEnd = 0 := by
    intro r h1 h2 h3 h4 h5
    have ha := adjustSensitivityFactor_preserves r
    exact ⟨ha.1.trans h1, ha.2.1.trans h2, ha.2.2.1.trans h3, ha.2.2.2.1.trans h4,
      ha.2.2.2.2.1.trans h5, ha.2.2.2.2.2⟩
  simp only [recalibrateFromRecentSilence]
  split_ifs with h h2
  · exact key _ rfl rfl rfl rfl rfl
  · exact key _ rfl rfl rfl rfl rfl
  · exact ⟨rfl, rfl, rfl, rfl, rfl, rfl⟩

/-- A below-threshold sample on a confirmed-speaking analyzer whose
silence counter has just reached `consecutive_frames_threshold`: the
`speech-end` transition fires. -/
theorem addAudioSample_silent_fires (cfg : AConfig) (s : AState) (l : ℝ) (t rnow : Int)
    (hN : 1 ≤ cfg.consecutive_frames_threshold)
    (hcal : s.is_calibrating = false)
    (hlast : s.last_is_speech = true)
    (hbelow : l ≤ getCurrentThreshold s)
    (hge : cfg.consecutive_frames_threshold ≤ s.consecutive_silence_frames + 1) :
    (addAudioSample cfg s l t rnow).2.2 = [AEvent.speechEnd] ∧
    (addAudioSample cfg s l t rnow).2.1.last_is_speech = false ∧
    (addAudioSample cfg s l t rnow).2.1.is_calibrating = false ∧
    (addAudioSample cfg s l t rnow).2.1.consecutive_silence_frames
      = s.consecutive_silence_frames + 1 ∧
    (addAudioSample cfg s l t rnow).2.1.calibration_complete
      = s.calibration_complete := by
  have hrlt : rlt (getCurrentThreshold s) l = false := rlt_eq_false.mpr hbelow
  have hconf : decide (cfg.consecutive_frames_threshold ≤ 0) = false := by
    rw [decide_eq_false_iff_not]
    omega
  have hsil : decide (cfg.consecutive_frames_threshold
      ≤ s.consecutive_silence_frames + 1) = true := decide_eq_true hge
  simp only [addAudioSample, hcal, Bool.false_eq_true, if_false, hrlt, hlast, hconf,
    hsil, Bool.not_true, Bool.not_false, Bool.false_and, Bool.and_false, Bool.true_and,
    Bool.and_true, Bool.and_self, if_true]
  exact ⟨by trivial, by trivial, by trivial, by trivial, by trivial⟩

/-- A below-threshold sample on a confirmed-speaking analyzer whose
silence counter stays short of the threshold: no transition, no
`speech-end`, the counter advances by one. -/
theorem addAudioSample_silent_early (cfg : AConfig) (s : AState) (l : ℝ) (t rnow : Int)
    (hN : 1 ≤ cfg.consecutive_frames_threshold)
    (hcal : s.is_calibrating = false)
    (hlast : s.last_is_speech = true)
    (hbelow : l ≤ getCurrentThreshold s)
    (hlt : s.consecutive_silence_frames + 1 < cfg.consecutive_frames_threshold) :
    (addAudioSample cfg s l t rnow).2.2.count AEvent.speechEnd = 0 ∧
    (addAudioSample cfg s l t rnow).2.1.last_is_speech = true ∧
    (addAudioSample cfg s l t rnow).2.1.is_calibrating = false ∧
    (addAudioSample cfg s l t rnow).2.1.calibration_complete = s.calibration_complete ∧
    (addAudioSample cfg s l t rnow).2.1.consecutive_silence_frames
      = s.consecutive_silence_frames + 1 := by
  have hrlt : rlt (getCurrentThreshold s) l = false := rlt_eq_false.mpr hbelow
  have hconf : decide (cfg.consecutive_frames_threshold ≤ 0) = false := by
    rw [decide_eq_false_iff_not]
    omega
  have hsil : decide (cfg.consecutive_frames_threshold
      ≤ s.consecutive_silence_frames + 1) = false := by
    rw [decide_eq_false_iff_not]
    omega
  have keyCount : ∀ r : AState,
      (recalibrateFromRecentSilence cfg r rnow).2.count AEvent.speechEnd = 0 :=
    fun r => (recalibrate_preserves cfg r rnow).2.2.2.2.2
  have keyLast : ∀ r : AState, r.last_is_speech = true →
      (recalibrateFromRecentSilence cfg r rnow).1.last_is_speech = true :=
    fun r h => ((recalibrate_preserves cfg r rnow).1).trans h
  have keyCal : ∀ r : AState, r.is_calibrating = false →
      (recalibrateFromRecentSilence cfg r rnow).1.is_calibrating = false :=
    fun r h => ((recalibrate_preserves cfg r rnow).2.1).trans h
  have keyCC : ∀ r : AState, r.calibration_complete = s.calibration_complete →
      (recalibrateFromRecentSilence cfg r rnow).1.calibration_complete
        = s.calibration_complete :=
    fun r h => ((recalibrate_preserves cfg r rnow).2.2.1).trans h
  have keyCsil : ∀ r : AState,
      r.consecutive_silence_frames = s.consecutive_silence_frames + 1 →
      (recalibrateFromRecentSilence cfg r rnow).1.consecutive_silence_frames
        = s.consecutive_silence_frames + 1 :=
    fun r h => ((recalibrate_preserves cfg r rnow).2.2.2.2.1).trans h
  simp only [addAudioSample, hcal, Bool.false_eq_true, if_false, hrlt, hconf,
    hsil, Bool.not_true, Bool.not_false, Bool.false_and, Bool.and_false, Bool.true_and,
    Bool.and_true, if_true]
  split_ifs <;>
    first
      | exact ⟨keyCount _, keyLast _ hlast, keyCal _ rfl, keyCC _ rfl, keyCsil _ rfl⟩
      | exact ⟨rfl, hlast, rfl, rfl, rfl⟩

/-- A below-threshold sample on an analyzer already in confirmed
silence: nothing fires and the state stays silent. -/
theorem addAudioSample_silent_stays (cfg : AConfig) (s : AState) (l : ℝ) (t rnow : Int)
    (hN : 1 ≤ cfg.consecutive_frames_threshold)
    (hcal : s.is_calibrating = false)
    (hlast : s.last_is_speech = false)
    (hbelow : l ≤ getCurrentThreshold s) :
    (addAudioSample cfg s l t rnow).2.2.count AEvent.speechEnd = 0 ∧
    (addAudioSample cfg s l t rnow).2.1.last_is_speech = false ∧
    (addAudioSample cfg s l t rnow).2.1.is_calibrating = false ∧
    (addAudioSample cfg s l t rnow).2.1.calibration_complete
      = s.calibration_complete := by
  have hrlt : rlt (getCurrentThreshold s) l = false := rlt_eq_false.mpr hbelow
  have hconf : decide (cfg.consecutive_frames_threshold ≤ 0) = false := by
    rw [decide_eq_false_iff_not]
    omega
  have keyCount : ∀ r : AState,
      (recalibrateFromRecentSilence cfg r rnow).2.count AEvent.speechEnd = 0 :=
    fun r => (recalibrate_preserves cfg r rnow).2.2.2.2.2
  have keyLast : ∀ r : AState, r.last_is_speech = false →
      (recalibrateFromRecentSilence cfg r rnow).1.last_is_speech = false :=
    fun r h => ((recalibrate_preserves cfg r rnow).1).trans h
  have keyCal : ∀ r : AState, r.is_calibrating = false →
      (recalibrateFromRecentSilence cfg r rnow).1.is_calibrating = false :=
    fun r h => ((recalibrate_preserves cfg r rnow).2.1).trans h
  have keyCC : ∀ r : AState, r.calibration_complete = s.calibration_complete →
      (recalibrateFromRecentSilence cfg r rnow).1.calibration_complete
        = s.calibration_complete :=
    fun r h => ((recalibrate_preserves cfg r rnow).2.2.1).trans h
  simp only [addAudioSample, hcal, Bool.false_eq_true, if_false, hrlt, hconf, hlast,
    Bool.not_true, Bool.not_false, Bool.false_and, Bool.and_false, Bool.true_and,
    Bool.and_true, if_true]
  split_ifs <;>
    first
      | exact ⟨keyCount _, keyLast _ rfl, keyCal _ rfl, keyCC _ rfl⟩
      | exact ⟨rfl, rfl, rfl, rfl⟩

theorem belowAll_append (cfg : AConfig) :
    ∀ (a b : List (ℝ × Int)) (s : AState),
    BelowAll cfg s (a ++ b)
      ↔ (BelowAll cfg s a ∧ BelowAll cfg (runAnalyzer cfg s a).2 b)
  | [], b, s => by simp [BelowAll, runAnalyzer]
  | (l, t) :: a, b, s => by
    have ih := belowAll_append cfg a b (addAudioSample cfg s l t t).2.1
    simp [BelowAll, runAnalyzer, ih, and_assoc]

theorem countSpeechEnd_cons (r : AResult) (evs : List AEvent)
    (out : List (AResult × List AEvent)) :
    countSpeechEnd ((r, evs) :: out) = evs.count AEvent.speechEnd + countSpeechEnd out :=
  rfl

/-- Running consecutively below-threshold samples on a confirmed-speaking
analyzer while the silence counter stays short of the debounce threshold:
no `speech-end`, the state stays speaking, the counter advances. -/
theorem run_silent_speaking (cfg : AConfig)
    (hN : 1 ≤ cfg.consecutive_frames_threshold) :
    ∀ (w : List (ℝ × Int)) (s : AState),
    s.is_calibrating = false → s.last_is_speech = true →
    s.consecutive_silence_frames + w.length < cfg.consecutive_frames_threshold →
    BelowAll cfg s w →
    countSpeechEnd (runAnalyzer cfg s w).1 = 0 ∧
    (runAnalyzer cfg s w).2.is_calibrating = false ∧
    (runAnalyzer cfg s w).2.last_is_speech = true ∧
    (runAnalyzer cfg s w).2.consecutive_silence_frames
      = s.consecutive_silence_frames + w.length
  | [], s, hcal, hlast, hcnt, hb => by simp [runAnalyzer, countSpeechEnd, hcal, hlast]
  | (l, t) :: w, s, hcal, hlast, hcnt, hb => by
    obtain ⟨hb1, hbrest⟩ := hb
    have hlen : ((l, t) :: w).length = w.length + 1 := rfl
    have hstep := addAudioSample_silent_early cfg s l t t hN hcal hlast hb1
      (by rw [hlen] at hcnt; omega)
    have ih := run_silent_speaking cfg hN w (addAudioSample cfg s l t t).2.1
      hstep.2.2.1 hstep.2.1
      (by rw [hstep.2.2.2.2]; rw [hlen] at hcnt; omega) hbrest
    refine ⟨?_, ih.2.1, ih.2.2.1, ?_⟩
    · show countSpeechEnd (((addAudioSample cfg s l t t).1,
          (addAudioSample cfg s l t t).2.2)
        :: (runAnalyzer cfg (addAudioSample cfg s l t t).2.1 w).1) = 0
      rw [countSpeechEnd_cons, hstep.1, ih.1]
    · show (runAnalyzer cfg (addAudioSample cfg s l t t).2.1 w).2.consecutive_silence_frames
        = s.consecutive_silence_frames + ((l, t) :: w).length
      rw [ih.2.2.2, hstep.2.2.2.2, hlen]
      omega

/-- Running below-threshold samples on an analyzer in confirmed silence:
no `speech-end` is ever emitted and the state stays silent. -/
theorem run_silent_notspeaking (cfg : AConfig)
    (hN : 1 ≤ cfg.consecutive_frames_threshold) :
    ∀ (w : List (ℝ × Int)) (s : AState),
    s.is_calibrating = false → s.last_is_speech = false →
    BelowAll cfg s w →
    countSpeechEnd (runAnalyzer cfg s w).1 = 0 ∧
    (runAnalyzer cfg s w).2.is_calibrating = false ∧
    (runAnalyzer cfg s w).2.last_is_speech = false
  | [], s, hcal, hlast, hb => by simp [runAnalyzer, countSpeechEnd, hcal, hlast]
  | (l, t) :: w, s, hcal, hlast, hb => by
    obtain ⟨hb1, hbrest⟩ := hb
    have hstep := addAudioSample_silent_stays cfg s l t t hN hcal hlast hb1
    have ih := run_silent_notspeaking cfg hN w (addAudioSample cfg s l t t).2.1
      hstep.2.2.1 hstep.2.1 hbrest
    refine ⟨?_, ih.2.1, ih.2.2⟩
    show countSpeechEnd (((addAudioSample cfg s l t t).1,
        (addAudioSample cfg s l t t).2.2)
      :: (runAnalyzer cfg (addAudioSample cfg s l t t).2.1 w).1) = 0
    rw [countSpeechEnd_cons, hstep.1, ih.1]

/-! ### C5: exactly one speech-end emission -/

/-- C5.  From a confirmed-speaking analyzer (silence counter zero),
feeding exactly `consecutive_frames_threshold` consecutive samples at or
below the current threshold — followed by any further below-threshold
samples — emits `speech-end` exactly once, and that single emission falls
on the last of the first `consecutive_frames_threshold` samples: the
first `threshold - 1` outputs carry none, the first `threshold` outputs
carry exactly one, and the whole trace carries exactly one. -/
theorem speech_end_emitted_once (cfg : AConfig) (s0 : AState)
    (w rest : List (ℝ × Int))
    (hN : 1 ≤ cfg.consecutive_frames_threshold)
    (hcal : s0.is_calibrating = false)
    (hlast : s0.last_is_speech = true)
    (hsil0 : s0.consecutive_silence_frames = 0)
    (hw : w.length = cfg.consecutive_frames_threshold)
    (hbelow : BelowAll cfg s0 (w ++ rest)) :
    countSpeechEnd (runAnalyzer cfg s0 (w ++ rest)).1 = 1 ∧
    countSpeechEnd ((runAnalyzer cfg s0 (w ++ rest)).1.take
      (cfg.consecutive_frames_threshold - 1)) = 0 ∧
    countSpeechEnd ((runAnalyzer cfg s0 (w ++ rest)).1.take
      cfg.consecutive_frames_threshold) = 1 := by
  have hwne : w ≠ [] := by
    intro h
    rw [h] at hw
    simp at hw
    omega
  obtain ⟨w', p, hwsplit⟩ : ∃ w' p, w = w' ++ [p] :=
    ⟨w.dropLast, w.getLast hwne, (List.dropLast_append_getLast hwne).symm⟩
  obtain ⟨pl, pt⟩ := p
  subst hwsplit
  have hw' : w'.length + 1 = cfg.consecutive_frames_threshold := by
    simpa using hw
  rw [List.append_assoc] at hbelow ⊢
  obtain ⟨hbw', hbtail⟩ := (belowAll_append cfg w' ([(pl, pt)] ++ rest) s0).mp hbelow
  obtain ⟨hbp, hbrest⟩ :=
    (belowAll_append cfg [(pl, pt)] rest (runAnalyzer cfg s0 w').2).mp hbtail
  obtain ⟨hbp1, -⟩ := hbp
  have run1 := run_silent_speaking cfg hN w' s0 hcal hlast (by omega) hbw'
  have hstep := addAudioSample_silent_fires cfg (runAnalyzer cfg s0 w').2 pl pt pt hN
    run1.2.1 run1.2.2.1 hbp1 (by rw [run1.2.2.2]; omega)
  have hs2cal : (runAnalyzer cfg (runAnalyzer cfg s0 w').2 [(pl, pt)]).2.is_calibrating
      = false := by
    rw [runAnalyzer_single]
    exact hstep.2.2.1
  have hs2last : (runAnalyzer cfg (runAnalyzer cfg s0 w').2 [(pl, pt)]).2.last_is_speech
      = false := by
    rw [runAnalyzer_single]
    exact hstep.2.1
  have run3 := run_silent_notspeaking cfg hN rest
    (runAnalyzer cfg (runAnalyzer cfg s0 w').2 [(pl, pt)]).2 hs2cal hs2last hbrest
  have hmid : countSpeechEnd (runAnalyzer cfg (runAnalyzer cfg s0 w').2 [(pl, pt)]).1
      = 1 := by
    rw [runAnalyzer_single, countSpeechEnd_cons, hstep.1]
    rfl
  have hlenout : (runAnalyzer cfg s0 w').1.length = w'.length :=
    runAnalyzer_length cfg w' s0
  have hlenmid : (runAnalyzer cfg (runAnalyzer cfg s0 w').2 [(pl, pt)]).1.length = 1 :=
    runAnalyzer_length cfg [(pl, pt)] (runAnalyzer cfg s0 w').2
  rw [runAnalyzer_append cfg w' ([(pl, pt)] ++ rest) s0,
    runAnalyzer_append cfg [(pl, pt)] rest (runAnalyzer cfg s0 w').2]
  refine ⟨?_, ?_, ?_⟩
  · simp only [countSpeechEnd_append, run1.1, hmid, run3.1]
  · have hone : cfg.consecutive_frames_threshold - 1
        = ((runAnalyzer cfg s0 w').1).length := by
      rw [hlenout]
      omega
    rw [hone, ← List.append_assoc, List.take_append_of_le_length
      (by simp only [List.length_append]; omega), List.take_left]
    exact run1.1
  · have hone : cfg.consecutive_frames_threshold
        = ((runAnalyzer cfg s0 w').1
            ++ (runAnalyzer cfg (runAnalyzer cfg s0 w').2 [(pl, pt)]).1).length := by
      rw [List.length_append, hlenout, hlenmid]
      omega
    rw [← List.append_assoc, hone, List.take_left, countSpeechEnd_append, run1.1, hmid]

theorem speech_end_emitted_once_witness :
    BelowAll defaultAConfig speakingNC [((0 : ℝ), (10 : Int)), (0, 20), (0, 30)] ∧
    countSpeechEnd (runAnalyzer defaultAConfig speakingNC
        [((0 : ℝ), (10 : Int)), (0, 20), (0, 30)]).1 = 1 ∧
    countSpeechEnd ((runAnalyzer defaultAConfig speakingNC
        [((0 : ℝ), (10 : Int)), (0, 20), (0, 30)]).1.take 1) = 0 ∧
    countSpeechEnd ((runAnalyzer defaultAConfig speakingNC
        [((0 : ℝ), (10 : Int)), (0, 20), (0, 30)]).1.take 2) = 1 := by
  have hN : 1 ≤ defaultAConfig.consecutive_frames_threshold := by decide
  have hthr0 : getCurrentThreshold speakingNC = 0.1 := by
    rw [getCurrentThreshold, if_neg]
    simp [speakingNC, readySpeaking]
  have h1 := addAudioSample_silent_early defaultAConfig speakingNC 0 10 10 hN rfl rfl
    (by rw [hthr0]; norm_num) (by decide)
  have hcc1 : (addAudioSample defaultAConfig speakingNC 0 10 10).2.1.calibration_complete
      = false := h1.2.2.2.1.trans rfl
  have hthr1 : getCurrentThreshold (addAudioSample defaultAConfig speakingNC 0 10 10).2.1
      = 0.1 := by
    rw [getCurrentThreshold, if_neg (by simp [hcc1])]
  have h2 := addAudioSample_silent_fires defaultAConfig
    (addAudioSample defaultAConfig speakingNC 0 10 10).2.1 0 20 20 hN
    h1.2.2.1 h1.2.1 (by rw [hthr1]; norm_num)
    (by rw [h1.2.2.2.2]; decide)
  have hcc2 : ((addAudioSample defaultAConfig
      (addAudioSample defaultAConfig speakingNC 0 10 10).2.1 0 20 20).2.1).calibration_complete
      = false := h2.2.2.2.2.trans hcc1
  have hthr2 : getCurrentThreshold (addAudioSample defaultAConfig
      (addAudioSample defaultAConfig speakingNC 0 10 10).2.1 0 20 20).2.1 = 0.1 := by
    rw [getCurrentThreshold, if_neg (by simp [hcc2])]
  have hbelow : BelowAll defaultAConfig speakingNC
      [((0 : ℝ), (10 : Int)), (0, 20), (0, 30)] := by
    simp only [BelowAll]
    refine ⟨by rw [hthr0]; norm_num, by rw [hthr1]; norm_num, by rw [hthr2]; norm_num,
      trivial⟩
  have h := speech_end_emitted_once defaultAConfig speakingNC
    [((0 : ℝ), (10 : Int)), (0, 20)] [((0 : ℝ), (30 : Int))]
    hN rfl rfl rfl (by decide) hbelow
  exact ⟨hbelow, h.1, h.2.1, h.2.2⟩

end Csm

end
